import Mathlib

/-!
Shallow embedding of the regulatory-base computation engine of
`src/services/simulator.py` (class `SimuladorPeriodos`), together with
theorems settling the specification claims about it.

Modelling conventions:
* monetary amounts are rationals; Python `round(x, 2)` becomes `round2`;
* a calendar month "mm/AAAA" is the absolute month index `12 * AAAA + (mm - 1)`;
* Python dictionaries keyed by year or month become association lists with
  `List.lookup`;
* code that can raise an exception returns `Option` / `Except`.
-/

namespace PensionBases

/-- Rounding to two decimal places, the embedding of Python `round(x, 2)`
(idealized as round-half-up on exact rationals). -/
def round2 (x : ℚ) : ℚ := ((⌊x * 100 + 1 / 2⌋ : ℤ) : ℚ) / 100

/-- An exact amount of whole cents: the denominator divides 100.  Every
amount handled by the engine has this form, since `BaseCotizacion` rounds
its amount to two decimals on construction. -/
def esCentimos (q : ℚ) : Prop := q.den ∣ 100

instance (q : ℚ) : Decidable (esCentimos q) := inferInstanceAs (Decidable (q.den ∣ 100))

/-- Absolute month index of the calendar month "mm/AAAA". -/
def mesAnyo (mes anio : ℕ) : ℕ := 12 * anio + (mes - 1)

/-- Year of an absolute month index (the `.year` of the parsed date). -/
def anioDe (t : ℕ) : ℕ := t / 12

/-- A monthly contribution record (`BaseCotizacion` of
`models/bases_cotizacion.py`; also the raw dictionary rows handled in
`_procesar_bases_extraidas`). -/
structure BaseCotizacion where
  mes_anyo : ℕ
  base : ℚ
  empresa : String
  regimen : String
deriving DecidableEq

/-- One year's minimum and maximum monthly contribution caps
(one entry of `topes_cotizacion.yaml`). -/
structure Topes where
  base_minima_mensual : ℚ
  base_maxima_mensual : ℚ
deriving DecidableEq

/-- One year's computation parameters
(one entry of `parametros_computo_anual.yaml`). -/
structure Parametros where
  bases_incluidas : ℕ
  periodo_meses : ℕ
  divisor_base_reguladora : ℕ
deriving DecidableEq

/-- Python `min(l, key=...)` over `a :: l`: the fold keeps the current best
and replaces it only on a strictly smaller key, so the first minimizer wins. -/
def mejorMin {α κ : Type} [LinearOrder κ] (key : α → κ) (a : α) (l : List α) : α :=
  l.foldl (fun mejor z => if key z < key mejor then z else mejor) a

/-- Python `max(l, key=...)` over `a :: l`: the fold replaces the current best
only on a strictly larger key, so the first maximizer wins. -/
def mejorMax {α κ : Type} [LinearOrder κ] (key : α → κ) (a : α) (l : List α) : α :=
  l.foldl (fun mejor z => if key mejor < key z then z else mejor) a

/-- `min(anios_disponibles, key=lambda x: abs(x - anio))`, `none` on an empty
    list (Python raises there). -/
def anioMasCercano (anio : ℕ) : List ℕ → Option ℕ
  | [] => none
  | y :: ys => some (mejorMin (fun z => Nat.dist z anio) y ys)

/-- `_obtener_topes_anio`: exact-year lookup, else the nearest available year. -/
def _obtener_topes_anio (topes_cotizacion : List (ℕ × Topes)) (anio : ℕ) : Option Topes :=
  match topes_cotizacion.lookup anio with
  | some t => some t
  | none =>
    match anioMasCercano anio (topes_cotizacion.map Prod.fst) with
    | some y => topes_cotizacion.lookup y
    | none => none

/-- `_obtener_base_minima_anio`. -/
def _obtener_base_minima_anio (topes_cotizacion : List (ℕ × Topes)) (anio : ℕ) : Option ℚ :=
  (_obtener_topes_anio topes_cotizacion anio).map (·.base_minima_mensual)

/-- `get_parametros_computo`: parameters for the retirement year, else the
nearest available year taken over the sorted key list. -/
def get_parametros_computo (parametros_computo : List (ℕ × Parametros))
    (anio_jubilacion : ℕ) : Option Parametros :=
  match parametros_computo.lookup anio_jubilacion with
  | some p => some p
  | none =>
    match anioMasCercano anio_jubilacion
        ((parametros_computo.map Prod.fst).mergeSort (fun a b => Nat.ble a b)) with
    | some y => parametros_computo.lookup y
    | none => none

/-- `calcular_base_laguna`: statutory imputation for the `n_laguna`-th gap
month.  Returns `none` exactly where the Python code would raise (minimum-base
lookup over an empty cap table). -/
def calcular_base_laguna (regimen_acceso sexo : String)
    (cumple_condiciones_hombre : Bool) (topes_cotizacion : List (ℕ × Topes))
    (fecha_laguna : ℕ) (n_laguna : ℕ) : Option ℚ :=
  if regimen_acceso = "AUTONOMO" then some 0
  else
    match _obtener_base_minima_anio topes_cotizacion (anioDe fecha_laguna) with
    | none => none
    | some base_min =>
      if n_laguna ≤ 48 then some base_min
      else
        if sexo = "FEMENINO" ∨ (sexo = "MASCULINO" ∧ cumple_condiciones_hombre = true) then
          if n_laguna ≤ 60 then some base_min
          else if n_laguna ≤ 84 then some (round2 ((4 / 5) * base_min))
          else some (round2 ((1 / 2) * base_min))
        else some (round2 ((1 / 2) * base_min))

/-- Python `max(l, key=...)` over a nonempty list with key `·.base`: the fold
replaces the current best only on a strictly larger key, so the first maximizer
wins. -/
def mayorPorBase : List BaseCotizacion → Option BaseCotizacion
  | [] => none
  | b :: bs => some (mejorMax (·.base) b bs)

/-- Python `max(l, key=...)` with key `·.mes_anyo`. -/
def mayorPorFecha : List BaseCotizacion → Option BaseCotizacion
  | [] => none
  | b :: bs => some (mejorMax (·.mes_anyo) b bs)

/-- Result dictionary of `_agregar_bases_mes`. -/
structure Agregacion where
  mes_anyo : ℕ
  bases_individuales : List BaseCotizacion
  base_agregada_bruta : ℚ
  base_agregada_final : ℚ
  aplicado_tope : String
  regimen_principal : String
  empresa_agregada : String
  empresas_detalle : List String
deriving DecidableEq

/-- `_agregar_bases_mes`: multi-employer aggregation of one month under the
year's caps.  `none` where the Python code would raise (empty cap table, or
`max` over an empty record list). -/
def _agregar_bases_mes (topes_cotizacion : List (ℕ × Topes))
    (bases_mes : List BaseCotizacion) (fecha : ℕ) : Option Agregacion :=
  let suma_bruta := (bases_mes.map (·.base)).sum
  match _obtener_topes_anio topes_cotizacion (anioDe fecha) with
  | none => none
  | some topes =>
    let tope_minimo := topes.base_minima_mensual
    let tope_maximo := topes.base_maxima_mensual
    let resultado :=
      if suma_bruta < tope_minimo then (tope_minimo, "minimo")
      else if tope_maximo < suma_bruta then (tope_maximo, "maximo")
      else (suma_bruta, "ninguno")
    match mayorPorBase bases_mes with
    | none => none
    | some principal =>
      some { mes_anyo := fecha
             bases_individuales := bases_mes
             base_agregada_bruta := round2 suma_bruta
             base_agregada_final := round2 resultado.1
             aplicado_tope := resultado.2
             regimen_principal := principal.regimen
             empresa_agregada := "PLURIACTIVIDAD_" ++ toString bases_mes.length ++ "_EMPRESAS"
             empresas_detalle := bases_mes.map (·.empresa) }

/-- The average used by `simular_periodo_futuro`: mean of the amounts of the
months within 5 months of the latest record, or the latest amount if none
qualify. -/
def promedioReciente (bases : List BaseCotizacion) (ultima_base : BaseCotizacion) : ℚ :=
  let bases_recientes :=
    (bases.filter (fun b => ultima_base.mes_anyo - 5 ≤ b.mes_anyo)).map (·.base)
  if bases_recientes = [] then ultima_base.base
  else bases_recientes.sum / (bases_recientes.length : ℚ)

/-- `simular_periodo_futuro`: synthetic monthly records from the month after
the latest known record up to and including the month before retirement. -/
def simular_periodo_futuro (bases : List BaseCotizacion) (fecha_jubilacion : ℕ)
    (regimen_acceso : String) : List BaseCotizacion :=
  match mayorPorFecha bases with
  | none => []
  | some ultima_base =>
    if fecha_jubilacion ≤ ultima_base.mes_anyo then []
    else
      (List.range (fecha_jubilacion - 1 - ultima_base.mes_anyo)).map (fun i =>
        { mes_anyo := ultima_base.mes_anyo + 1 + i
          base := round2 (promedioReciente bases ultima_base)
          empresa := "SIMULADA"
          regimen := regimen_acceso })

/-- The month dictionary `bases_dict` (later entries overwrite earlier ones,
as in the Python dict build). -/
def bases_dict (bases_todas : List BaseCotizacion) (mes : ℕ) : Option BaseCotizacion :=
  bases_todas.foldl (fun acc b => if b.mes_anyo = mes then some b else acc) none

/-- The backward walk of `obtener_bases_periodo_computo`: from `fecha_actual`,
`restantes` months to fill, local gap counter `contador`. -/
def recorrerPeriodo (regimen_acceso sexo : String) (cumple_condiciones_hombre : Bool)
    (topes_cotizacion : List (ℕ × Topes)) (bases_todas : List BaseCotizacion) :
    ℕ → ℕ → ℕ → Option (List BaseCotizacion)
  | _, 0, _ => some []
  | fecha_actual, restantes + 1, contador =>
    match bases_dict bases_todas fecha_actual with
    | some b =>
      (recorrerPeriodo regimen_acceso sexo cumple_condiciones_hombre topes_cotizacion
        bases_todas (fecha_actual - 1) restantes contador).map (b :: ·)
    | none =>
      match calcular_base_laguna regimen_acceso sexo cumple_condiciones_hombre
          topes_cotizacion fecha_actual (contador + 1) with
      | none => none
      | some base_calculada =>
        (recorrerPeriodo regimen_acceso sexo cumple_condiciones_hombre topes_cotizacion
          bases_todas (fecha_actual - 1) restantes (contador + 1)).map
          (({ mes_anyo := fecha_actual, base := base_calculada,
              empresa := "LAGUNA", regimen := regimen_acceso } : BaseCotizacion) :: ·)

/-- The state held by a `SimuladorPeriodos` instance after construction. -/
structure Simulador where
  bases : List BaseCotizacion
  fecha_jubilacion : ℕ
  regimen_acceso : String
  sexo : String
  cumple_condiciones_hombre : Bool
  parametros_computo : List (ℕ × Parametros)
  indices_revalorizacion : List (ℕ × ℚ)
  topes_cotizacion : List (ℕ × Topes)
  parametros_anio_jubilacion : Parametros
deriving DecidableEq

/-- `obtener_bases_periodo_computo`: the period window, walking backward from
one month before retirement, with the gap counter restarted at zero. -/
def obtener_bases_periodo_computo (s : Simulador)
    (usar_parametros_antiguos : Bool) : Option (List BaseCotizacion) :=
  let bases_todas :=
    s.bases ++ simular_periodo_futuro s.bases s.fecha_jubilacion s.regimen_acceso
  let bases_incluidas :=
    if usar_parametros_antiguos then 300 else s.parametros_anio_jubilacion.bases_incluidas
  recorrerPeriodo s.regimen_acceso s.sexo s.cumple_condiciones_hombre s.topes_cotizacion
    bases_todas (s.fecha_jubilacion - 1) bases_incluidas 0

/-- A period record: the dictionary produced by `anadir_periodo`, possibly
extended by `revalorizar_bases` (the two optional fields are the keys
`base_original` and `indice_revalorizacion`, present only when added). -/
structure BaseProcesada where
  mes_anyo : ℕ
  base : ℚ
  empresa : String
  regimen : String
  periodo : String
  base_original : Option ℚ := none
  indice_revalorizacion : Option ℚ := none
deriving DecidableEq

/-- The per-record body of `anadir_periodo`: months at or after
`fecha_jubilacion - 24` are kept verbatim as "no_revalorizado", older months
are tagged "revalorizado". -/
def anadirPeriodoBase (fecha_jubilacion : ℕ) (b : BaseCotizacion) : BaseProcesada :=
  { mes_anyo := b.mes_anyo
    base := b.base
    empresa := b.empresa
    regimen := b.regimen
    periodo :=
      if fecha_jubilacion - 24 ≤ b.mes_anyo then "no_revalorizado" else "revalorizado" }

/-- `anadir_periodo`. -/
def anadir_periodo (fecha_jubilacion : ℕ) (bases_periodo : List BaseCotizacion) :
    List BaseProcesada :=
  bases_periodo.map (anadirPeriodoBase fecha_jubilacion)

/-- The per-record body of `revalorizar_bases`: a "revalorizado" record is
multiplied by its month's index and rounded when the index exists, and kept
unchanged with index 1.0 recorded when it does not; other records pass
through untouched. -/
def revalorizarBase (indices_revalorizacion : List (ℕ × ℚ)) (b : BaseProcesada) :
    BaseProcesada :=
  if b.periodo = "revalorizado" then
    match indices_revalorizacion.lookup b.mes_anyo with
    | some indice =>
      { b with base := round2 (b.base * indice)
               base_original := some b.base
               indice_revalorizacion := some indice }
    | none =>
      { b with base_original := some b.base
               indice_revalorizacion := some 1 }
  else b

/-- `revalorizar_bases`. -/
def revalorizar_bases (indices_revalorizacion : List (ℕ × ℚ))
    (bases_con_periodo : List BaseProcesada) : List BaseProcesada :=
  bases_con_periodo.map (revalorizarBase indices_revalorizacion)

/-- The statistics dictionary of `_calcular_estadisticas_para_bases`. -/
structure Estadisticas where
  total_bases : ℕ
  bases_revalorizadas : ℕ
  bases_no_revalorizadas : ℕ
  suma_periodo_revalorizado : ℚ
  suma_periodo_no_revalorizado : ℚ
  suma_total : ℚ
  base_reguladora : ℚ
deriving DecidableEq

/-- `_calcular_estadisticas_para_bases`; the empty dictionary returned for an
empty record list is modelled as `none`. -/
def _calcular_estadisticas_para_bases (bases_procesadas : List BaseProcesada)
    (divisor : ℕ) : Option Estadisticas :=
  if bases_procesadas = [] then none
  else
    let bases_revalorizadas := bases_procesadas.filter (fun b => b.periodo = "revalorizado")
    let bases_no_revalorizadas :=
      bases_procesadas.filter (fun b => b.periodo = "no_revalorizado")
    let suma_revalorizadas := (bases_revalorizadas.map (·.base)).sum
    let suma_no_revalorizadas := (bases_no_revalorizadas.map (·.base)).sum
    let suma_total := suma_revalorizadas + suma_no_revalorizadas
    some { total_bases := bases_procesadas.length
           bases_revalorizadas := bases_revalorizadas.length
           bases_no_revalorizadas := bases_no_revalorizadas.length
           suma_periodo_revalorizado := round2 suma_revalorizadas
           suma_periodo_no_revalorizado := round2 suma_no_revalorizadas
           suma_total := round2 suma_total
           base_reguladora := round2 (suma_total / (divisor : ℚ)) }

/-- The final `list.sort(key=fecha, reverse=True)` of both pipeline runs:
a stable sort putting the most recent month first. -/
def ordenarPorFechaDesc (l : List BaseProcesada) : List BaseProcesada :=
  l.mergeSort (fun a b => Nat.ble b.mes_anyo a.mes_anyo)

/-- `_procesar_calculo_reforma`: window with reform parameters, period
tagging, revaluation, descending sort, statistics with the reform divisor. -/
def _procesar_calculo_reforma (s : Simulador) :
    Option (List BaseProcesada × Option Estadisticas) :=
  (obtener_bases_periodo_computo s false).map (fun bases_periodo =>
    let ordenadas :=
      ordenarPorFechaDesc (revalorizar_bases s.indices_revalorizacion
        (anadir_periodo s.fecha_jubilacion bases_periodo))
    (ordenadas, _calcular_estadisticas_para_bases ordenadas
      s.parametros_anio_jubilacion.divisor_base_reguladora))

/-- `_procesar_calculo_prereforma`: same pipeline with the fixed legacy
parameters, 300 months and divisor 350. -/
def _procesar_calculo_prereforma (s : Simulador) :
    Option (List BaseProcesada × Option Estadisticas) :=
  (obtener_bases_periodo_computo s true).map (fun bases_periodo =>
    let ordenadas :=
      ordenarPorFechaDesc (revalorizar_bases s.indices_revalorizacion
        (anadir_periodo s.fecha_jubilacion bases_periodo))
    (ordenadas, _calcular_estadisticas_para_bases ordenadas 350))

/-- `_elegir_calculo_mas_favorable`: the reform result wins whenever its
regulatory base is greater than or equal to the legacy one. -/
def _elegir_calculo_mas_favorable (bases_reforma : List BaseProcesada)
    (estadisticas_reforma : Estadisticas) (bases_prereforma : List BaseProcesada)
    (estadisticas_prereforma : Estadisticas) :
    List BaseProcesada × Estadisticas × String :=
  if estadisticas_prereforma.base_reguladora ≤ estadisticas_reforma.base_reguladora then
    (bases_reforma, estadisticas_reforma, "reforma_rd2_2023")
  else
    (bases_prereforma, estadisticas_prereforma, "prereforma")

/-- The `parametros` sub-dictionary of each entry of `comparativa_calculos`. -/
structure ParametrosInfo where
  bases_incluidas : ℕ
  divisor : ℕ
  periodo_meses : ℕ
deriving DecidableEq

/-- One entry of `comparativa_calculos`. -/
structure ComparativaCalculo where
  parametros : ParametrosInfo
  estadisticas : Estadisticas
  total_bases : ℕ
deriving DecidableEq

/-- The complete result dictionary of `_generar_resultado_completo`. -/
structure ResultadoCompleto where
  bases_procesadas : List BaseProcesada
  estadisticas : Estadisticas
  calculo_elegido : String
  calculo_reforma_rd2_2023 : ComparativaCalculo
  calculo_prereforma : ComparativaCalculo
  parametros_computo : Parametros
  fecha_jubilacion : ℕ
  regimen_acceso : String
  sexo : String
deriving DecidableEq

/-- `_generar_resultado_completo`. -/
def _generar_resultado_completo (s : Simulador) (bases_elegidas : List BaseProcesada)
    (estadisticas_elegidas : Estadisticas) (calculo_elegido : String)
    (bases_reforma : List BaseProcesada) (estadisticas_reforma : Estadisticas)
    (bases_prereforma : List BaseProcesada) (estadisticas_prereforma : Estadisticas) :
    ResultadoCompleto :=
  { bases_procesadas := bases_elegidas
    estadisticas := estadisticas_elegidas
    calculo_elegido := calculo_elegido
    calculo_reforma_rd2_2023 :=
      { parametros := { bases_incluidas := s.parametros_anio_jubilacion.bases_incluidas
                        divisor := s.parametros_anio_jubilacion.divisor_base_reguladora
                        periodo_meses := s.parametros_anio_jubilacion.periodo_meses }
        estadisticas := estadisticas_reforma
        total_bases := bases_reforma.length }
    calculo_prereforma :=
      { parametros := { bases_incluidas := 300, divisor := 350, periodo_meses := 300 }
        estadisticas := estadisticas_prereforma
        total_bases := bases_prereforma.length }
    parametros_computo := s.parametros_anio_jubilacion
    fecha_jubilacion := s.fecha_jubilacion
    regimen_acceso := s.regimen_acceso
    sexo := s.sexo }

/-- `procesar_bases_completo`: both runs, the favorability choice, and the
complete result.  `none` models the exceptions the Python code would raise
inside either run (including the key access on an empty statistics
dictionary). -/
def procesar_bases_completo (s : Simulador) : Option ResultadoCompleto :=
  match _procesar_calculo_reforma s, _procesar_calculo_prereforma s with
  | some (bases_reforma, some estadisticas_reforma),
    some (bases_prereforma, some estadisticas_prereforma) =>
    let elegido := _elegir_calculo_mas_favorable bases_reforma estadisticas_reforma
      bases_prereforma estadisticas_prereforma
    some (_generar_resultado_completo s elegido.1 elegido.2.1 elegido.2.2
      bases_reforma estadisticas_reforma bases_prereforma estadisticas_prereforma)
  | _, _ => none

/-- The typed validation failures raised during construction of
`SimuladorPeriodos` (each `ValueError` of `_validar_datos_entrada` and of the
negative-amount check in `_procesar_bases_extraidas`). -/
inductive ErrorValidacion where
  | listaVacia
  | formatoFechaInvalido (fecha : String)
  | regimenInvalido (regimen : String)
  | baseNegativa (base : ℚ)
deriving DecidableEq

/-- The constructor arguments of `SimuladorPeriodos` once the record
collection has the right shape (a dictionary with a "bases" list). -/
structure EntradaSimulador where
  bases : List BaseCotizacion
  fecha_jubilacion : String
  regimen_acceso : String
  sexo : String
deriving DecidableEq

/-- Split a character list at the first slash; `none` when there is no slash
or more than one. -/
def separarFecha : List Char → List Char → Option (List Char × List Char)
  | [], _ => none
  | c :: resto, acc =>
    if c = '/' then
      if resto.contains '/' then none else some (acc.reverse, resto)
    else separarFecha resto (c :: acc)

/-- Numeric value of a nonempty all-digit character group. -/
def valorDigitos (l : List Char) : Option ℕ :=
  if l = [] then none
  else if l.all Char.isDigit then
    some (l.foldl (fun n c => 10 * n + (c.toNat - 48)) 0)
  else none

/-- `datetime.strptime(fecha, "%m/%Y")` success: two digit groups separated
by a slash, a month of one or two digits between 1 and 12, then a year of
exactly four digits at least 0001 (CPython's `%Y` matches exactly four
digits, and `datetime` rejects year 0). -/
def fechaValida (fecha : String) : Bool :=
  match separarFecha fecha.data [] with
  | some (m, a) =>
    match valorDigitos m, valorDigitos a with
    | some mes, some anio =>
      m.length ≤ 2 && 1 ≤ mes && mes ≤ 12 && a.length = 4 && 1 ≤ anio
    | _, _ => false
  | none => false

/-- Python `str.upper()` on ASCII text. -/
def mayusculaChar (c : Char) : Char :=
  if 97 ≤ c.toNat ∧ c.toNat ≤ 122 then Char.ofNat (c.toNat - 32) else c

/-- Python `str.upper()` on ASCII text. -/
def mayusculas (s : String) : String := ⟨s.data.map mayusculaChar⟩

/-- `_validar_datos_entrada` on a shape-valid input: empty record list,
then date format, then regime.  The sex value is never examined. -/
def _validar_datos_entrada (e : EntradaSimulador) : Except ErrorValidacion Unit :=
  if e.bases = [] then .error .listaVacia
  else if ¬ fechaValida e.fecha_jubilacion then
    .error (.formatoFechaInvalido e.fecha_jubilacion)
  else if ¬ (mayusculas e.regimen_acceso = "GENERAL" ∨ mayusculas e.regimen_acceso = "AUTONOMO") then
    .error (.regimenInvalido e.regimen_acceso)
  else .ok ()

/-- The negative-amount check of `_procesar_bases_extraidas`. -/
def validarBasesPositivas (bases : List BaseCotizacion) : Except ErrorValidacion Unit :=
  match bases.find? (fun b => b.base < 0) with
  | some b => .error (.baseNegativa b.base)
  | none => .ok ()

/-- The eager ingestion performed by the `SimuladorPeriodos` constructor:
uppercase the regime and sex, run `_validar_datos_entrada`, then the
negative-amount check; on success the computation proceeds. -/
def ingesta (e : EntradaSimulador) : Except ErrorValidacion EntradaSimulador :=
  match _validar_datos_entrada e with
  | .error err => .error err
  | .ok _ =>
    match validarBasesPositivas e.bases with
    | .error err => .error err
    | .ok _ =>
      .ok { e with regimen_acceso := mayusculas e.regimen_acceso, sexo := mayusculas e.sexo }

/-! Concrete reference data and inputs used to instantiate the theorems. -/

/-- A one-year cap table with the caps of the specification examples. -/
def topesEjemplo : List (ℕ × Topes) := [(2025, ⟨1080, 4495⟩)]

/-- Small computation parameters for concrete runs. -/
def parametrosEjemplo : Parametros := ⟨2, 2, 2⟩

/-- The five known monthly records of the end-to-end fixture
(09/2024 to 01/2025), most recent first. -/
def basesFixture : List BaseCotizacion :=
  [ ⟨mesAnyo 1 2025, 1500.50, "Empresa A", "GENERAL"⟩
  , ⟨mesAnyo 12 2024, 1450.75, "Empresa A", "GENERAL"⟩
  , ⟨mesAnyo 11 2024, 1400.25, "Empresa B", "GENERAL"⟩
  , ⟨mesAnyo 10 2024, 1350.00, "Empresa B", "GENERAL"⟩
  , ⟨mesAnyo 9 2024, 1300.50, "Empresa C", "GENERAL"⟩ ]

/-- Two plain records covering 04/2025 and 05/2025. -/
def basesEjemplo : List BaseCotizacion :=
  [ ⟨mesAnyo 5 2025, 1000, "Empresa A", "GENERAL"⟩
  , ⟨mesAnyo 4 2025, 1000, "Empresa B", "GENERAL"⟩ ]

/-- A concrete simulator state: retirement 06/2025, GENERAL regime, male
without the special flag, tiny reform parameters for tractable evaluation. -/
def simuladorEjemplo : Simulador :=
  { bases := basesEjemplo
    fecha_jubilacion := mesAnyo 6 2025
    regimen_acceso := "GENERAL"
    sexo := "MASCULINO"
    cumple_condiciones_hombre := false
    parametros_computo := [(2025, parametrosEjemplo)]
    indices_revalorizacion := []
    topes_cotizacion := topesEjemplo
    parametros_anio_jubilacion := parametrosEjemplo }

/-- A shape-valid ingestion input whose sex value is outside the documented
set. -/
def entradaEjemplo : EntradaSimulador :=
  { bases := basesEjemplo
    fecha_jubilacion := "06/2025"
    regimen_acceso := "GENERAL"
    sexo := "OTRO" }

/-- Two same-month records summing to 2000. -/
def basesDos2000 : List BaseCotizacion :=
  [ ⟨mesAnyo 6 2025, 1200, "Empresa A", "GENERAL"⟩
  , ⟨mesAnyo 6 2025, 800, "Empresa B", "GENERAL"⟩ ]

/-- Two same-month records summing to 900. -/
def basesDos900 : List BaseCotizacion :=
  [ ⟨mesAnyo 6 2025, 500, "Empresa A", "GENERAL"⟩
  , ⟨mesAnyo 6 2025, 400, "Empresa B", "GENERAL"⟩ ]

/-- Two same-month records summing to 5000. -/
def basesDos5000 : List BaseCotizacion :=
  [ ⟨mesAnyo 6 2025, 3000, "Empresa A", "GENERAL"⟩
  , ⟨mesAnyo 6 2025, 2000, "Empresa B", "GENERAL"⟩ ]

/-! Arithmetic facts about `round2` and cent amounts. -/

lemma esCentimos_iff (q : ℚ) : esCentimos q ↔ ∃ k : ℤ, q = (k : ℚ) / 100 := by
  constructor
  · intro h
    refine ⟨q.num * (100 / (q.den : ℤ)), ?_⟩
    have hden : (q.den : ℤ) ∣ 100 := Int.natCast_dvd_natCast.mpr h
    have hcanc : (q.den : ℤ) * (100 / (q.den : ℤ)) = 100 := Int.mul_ediv_cancel' hden
    have h100 : ((q.den : ℚ)) * (((100 / (q.den : ℤ)) : ℤ) : ℚ) = 100 := by
      exact_mod_cast hcanc
    have hdenQ : ((q.den : ℚ)) ≠ 0 := by
      exact_mod_cast q.den_nz
    have hqden : q * ((q.den : ℚ)) = (q.num : ℚ) := by
      nth_rewrite 1 [← Rat.num_div_den q]
      rw [div_mul_cancel₀]
      exact hdenQ
    rw [eq_div_iff (by norm_num : (100 : ℚ) ≠ 0)]
    calc q * 100 = q * (((q.den : ℚ)) * (((100 / (q.den : ℤ)) : ℤ) : ℚ)) := by rw [h100]
      _ = (q * ((q.den : ℚ))) * (((100 / (q.den : ℤ)) : ℤ) : ℚ) := by ring
      _ = (q.num : ℚ) * (((100 / (q.den : ℤ)) : ℤ) : ℚ) := by rw [hqden]
      _ = ((q.num * (100 / (q.den : ℤ)) : ℤ) : ℚ) := by push_cast; ring
  · rintro ⟨k, rfl⟩
    have h1 : ((k : ℚ) / ((100 : ℤ) : ℚ)) = Rat.divInt k 100 := (Rat.divInt_eq_div k 100).symm
    have h2 : ((Rat.divInt k 100).den : ℤ) ∣ 100 := Rat.den_dvd k 100
    have h3 : ((k : ℚ) / 100) = Rat.divInt k 100 := by
      simpa using h1
    rw [esCentimos, h3]
    exact_mod_cast h2

lemma round2_int_div (k : ℤ) : round2 ((k : ℚ) / 100) = (k : ℚ) / 100 := by
  unfold round2
  have h1 : ((k : ℚ) / 100) * 100 = (k : ℚ) := by
    field_simp
  rw [h1]
  have h2 : ⌊(k : ℚ) + 1 / 2⌋ = k + ⌊(1 / 2 : ℚ)⌋ := Int.floor_int_add k (1 / 2 : ℚ)
  have h3 : ⌊(1 / 2 : ℚ)⌋ = 0 := by norm_num
  rw [h2, h3]
  norm_num

lemma round2_centimos {q : ℚ} (h : esCentimos q) : round2 q = q := by
  obtain ⟨k, rfl⟩ := (esCentimos_iff q).mp h
  exact round2_int_div k

lemma esCentimos_add {q r : ℚ} (hq : esCentimos q) (hr : esCentimos r) :
    esCentimos (q + r) := by
  obtain ⟨j, rfl⟩ := (esCentimos_iff q).mp hq
  obtain ⟨k, rfl⟩ := (esCentimos_iff r).mp hr
  refine (esCentimos_iff _).mpr ⟨j + k, ?_⟩
  push_cast
  ring

lemma esCentimos_sum {l : List ℚ} (h : ∀ x ∈ l, esCentimos x) : esCentimos l.sum := by
  induction l with
  | nil => exact (esCentimos_iff 0).mpr ⟨0, by norm_num⟩
  | cons x xs ih =>
    rw [List.sum_cons]
    exact esCentimos_add (h x (List.mem_cons_self x xs))
      (ih fun y hy => h y (List.mem_cons_of_mem x hy))

/-! Facts about the Python-style min/max folds and dictionary lookups. -/

lemma mejorMin_spec {α κ : Type} [LinearOrder κ] (key : α → κ) :
    ∀ (l : List α) (a : α),
      (mejorMin key a l = a ∨ mejorMin key a l ∈ l) ∧
      key (mejorMin key a l) ≤ key a ∧
      ∀ z ∈ l, key (mejorMin key a l) ≤ key z := by
  intro l
  induction l with
  | nil => exact fun a => ⟨Or.inl rfl, le_refl _, by simp⟩
  | cons x xs ih =>
    intro a
    have hstep : mejorMin key a (x :: xs) = mejorMin key (if key x < key a then x else a) xs := rfl
    obtain ⟨hmem, hle, hmin⟩ := ih (if key x < key a then x else a)
    rw [hstep]
    refine ⟨?_, ?_, ?_⟩
    · rcases hmem with h | h
      · rw [h]
        by_cases hx : key x < key a
        · rw [if_pos hx]; exact Or.inr (List.mem_cons_self x xs)
        · rw [if_neg hx]; exact Or.inl rfl
      · exact Or.inr (List.mem_cons_of_mem x h)
    · refine le_trans hle ?_
      by_cases hx : key x < key a
      · rw [if_pos hx]; exact le_of_lt hx
      · rw [if_neg hx]
    · intro z hz
      rcases List.mem_cons.mp hz with rfl | hz
      · refine le_trans hle ?_
        by_cases hx : key z < key a
        · rw [if_pos hx]
        · rw [if_neg hx]; exact le_of_not_lt hx
      · exact hmin z hz

lemma mejorMax_spec {α κ : Type} [LinearOrder κ] (key : α → κ) :
    ∀ (l : List α) (a : α),
      (mejorMax key a l = a ∨ mejorMax key a l ∈ l) ∧
      key a ≤ key (mejorMax key a l) ∧
      ∀ z ∈ l, key z ≤ key (mejorMax key a l) := by
  intro l
  induction l with
  | nil => exact fun a => ⟨Or.inl rfl, le_refl _, by simp⟩
  | cons x xs ih =>
    intro a
    have hstep : mejorMax key a (x :: xs) = mejorMax key (if key a < key x then x else a) xs := rfl
    obtain ⟨hmem, hle, hmax⟩ := ih (if key a < key x then x else a)
    rw [hstep]
    refine ⟨?_, ?_, ?_⟩
    · rcases hmem with h | h
      · rw [h]
        by_cases hx : key a < key x
        · rw [if_pos hx]; exact Or.inr (List.mem_cons_self x xs)
        · rw [if_neg hx]; exact Or.inl rfl
      · exact Or.inr (List.mem_cons_of_mem x h)
    · refine le_trans ?_ hle
      by_cases hx : key a < key x
      · rw [if_pos hx]; exact le_of_lt hx
      · rw [if_neg hx]
    · intro z hz
      rcases List.mem_cons.mp hz with rfl | hz
      · refine le_trans ?_ hle
        by_cases hx : key a < key z
        · rw [if_pos hx]
        · rw [if_neg hx]; exact le_of_not_lt hx
      · exact hmax z hz

lemma anioMasCercano_spec (anio : ℕ) (l : List ℕ) (h : l ≠ []) :
    ∃ y, anioMasCercano anio l = some y ∧ y ∈ l ∧
      ∀ z ∈ l, Nat.dist y anio ≤ Nat.dist z anio := by
  match l with
  | [] => exact absurd rfl h
  | a :: xs =>
    obtain ⟨hmem, hle, hmin⟩ := mejorMin_spec (fun z => Nat.dist z anio) xs a
    refine ⟨mejorMin (fun z => Nat.dist z anio) a xs, rfl, ?_, ?_⟩
    · rcases hmem with hixa | hixa
      · rw [hixa]; exact List.mem_cons_self a xs
      · exact List.mem_cons_of_mem a hixa
    · intro z hz
      rcases List.mem_cons.mp hz with rfl | hz
      · exact hle
      · exact hmin z hz

lemma lookup_mem {β : Type} {l : List (ℕ × β)} {k : ℕ} {b : β}
    (h : l.lookup k = some b) : (k, b) ∈ l := by
  induction l with
  | nil => simp [List.lookup] at h
  | cons p ps ih =>
    obtain ⟨k1, v1⟩ := p
    rw [List.lookup_cons] at h
    by_cases hk : k = k1
    · subst hk
      simp only [beq_self_eq_true] at h
      simp only [Option.some.injEq] at h
      subst h
      exact List.mem_cons_self (k, v1) ps
    · have hbe : (k == k1) = false := beq_eq_false_iff_ne.mpr hk
      simp only [hbe] at h
      exact List.mem_cons_of_mem (k1, v1) (ih h)

lemma lookup_isSome_of_mem {β : Type} {l : List (ℕ × β)} {k : ℕ}
    (h : k ∈ l.map Prod.fst) : ∃ b, l.lookup k = some b := by
  have hsome : (l.lookup k).isSome := by
    rw [List.lookup_isSome_iff]
    obtain ⟨p, hp, hfst⟩ := List.mem_map.mp h
    exact ⟨p, hp, by simp [hfst]⟩
  exact ⟨(l.lookup k).get hsome, Option.eq_some_of_isSome hsome⟩

/-- Nearest-year fallback of `_obtener_topes_anio`: a nonempty cap table
always yields the entry of a distance-minimizing year. -/
lemma _obtener_topes_anio_spec (topes_cotizacion : List (ℕ × Topes)) (anio : ℕ)
    (h : topes_cotizacion ≠ []) :
    ∃ y t, _obtener_topes_anio topes_cotizacion anio = some t ∧
      (y, t) ∈ topes_cotizacion ∧
      ∀ z ∈ topes_cotizacion.map Prod.fst, Nat.dist y anio ≤ Nat.dist z anio := by
  unfold _obtener_topes_anio
  cases hlk : topes_cotizacion.lookup anio with
  | some t =>
    refine ⟨anio, t, rfl, lookup_mem hlk, ?_⟩
    intro z _
    simp [Nat.dist_self]
  | none =>
    have hkeys : topes_cotizacion.map Prod.fst ≠ [] := by
      intro hemp
      exact h (List.map_eq_nil_iff.mp hemp)
    obtain ⟨y, hy, hymem, hymin⟩ := anioMasCercano_spec anio _ hkeys
    obtain ⟨t, ht⟩ := lookup_isSome_of_mem hymem
    exact ⟨y, t, by simp only [hy, ht], lookup_mem ht, hymin⟩

/-- Nearest-year fallback of `get_parametros_computo`. -/
lemma get_parametros_computo_spec (parametros_computo : List (ℕ × Parametros))
    (anio_jubilacion : ℕ) (h : parametros_computo ≠ []) :
    ∃ y p, get_parametros_computo parametros_computo anio_jubilacion = some p ∧
      (y, p) ∈ parametros_computo ∧
      ∀ z ∈ parametros_computo.map Prod.fst,
        Nat.dist y anio_jubilacion ≤ Nat.dist z anio_jubilacion := by
  unfold get_parametros_computo
  cases hlk : parametros_computo.lookup anio_jubilacion with
  | some p =>
    refine ⟨anio_jubilacion, p, rfl, lookup_mem hlk, ?_⟩
    intro z _
    simp [Nat.dist_self]
  | none =>
    have hkeys : (parametros_computo.map Prod.fst).mergeSort (fun a b => Nat.ble a b) ≠ [] := by
      intro hemp
      have := congrArg List.length hemp
      rw [List.length_mergeSort] at this
      exact h (List.map_eq_nil_iff.mp (List.length_eq_zero.mp this))
    obtain ⟨y, hy, hymem, hymin⟩ := anioMasCercano_spec anio_jubilacion _ hkeys
    rw [List.mem_mergeSort] at hymem
    obtain ⟨p, hp⟩ := lookup_isSome_of_mem hymem
    refine ⟨y, p, by simp only [hy, hp], lookup_mem hp, ?_⟩
    intro z hz
    exact hymin z (List.mem_mergeSort.mpr hz)

/-! Facts about the gap rule and the backward walk. -/

lemma _obtener_base_minima_anio_isSome (topes_cotizacion : List (ℕ × Topes)) (anio : ℕ)
    (h : topes_cotizacion ≠ []) :
    ∃ m, _obtener_base_minima_anio topes_cotizacion anio = some m := by
  obtain ⟨y, t, ht, _, _⟩ := _obtener_topes_anio_spec topes_cotizacion anio h
  exact ⟨t.base_minima_mensual, by simp [_obtener_base_minima_anio, ht]⟩

lemma calcular_base_laguna_isSome (regimen_acceso sexo : String)
    (cumple_condiciones_hombre : Bool) (topes_cotizacion : List (ℕ × Topes))
    (fecha_laguna n_laguna : ℕ) (h : topes_cotizacion ≠ []) :
    ∃ q, calcular_base_laguna regimen_acceso sexo cumple_condiciones_hombre
      topes_cotizacion fecha_laguna n_laguna = some q := by
  unfold calcular_base_laguna
  by_cases hreg : regimen_acceso = "AUTONOMO"
  · exact ⟨0, by rw [if_pos hreg]⟩
  · rw [if_neg hreg]
    obtain ⟨m, hm⟩ :=
      _obtener_base_minima_anio_isSome topes_cotizacion (anioDe fecha_laguna) h
    rw [hm]
    split_ifs <;> exact ⟨_, rfl⟩

lemma bases_dict_mes {bases_todas : List BaseCotizacion} {mes : ℕ} {b : BaseCotizacion}
    (h : bases_dict bases_todas mes = some b) : b.mes_anyo = mes := by
  suffices H : ∀ (l : List BaseCotizacion) (acc : Option BaseCotizacion),
      (∀ b0, acc = some b0 → b0.mes_anyo = mes) →
      (l.foldl (fun acc b => if b.mes_anyo = mes then some b else acc) acc = some b →
        b.mes_anyo = mes) by
    exact H bases_todas none (by intro b0 hb0; cases hb0) h
  intro l
  induction l with
  | nil =>
    intro acc hacc hfold
    exact hacc b hfold
  | cons x xs ih =>
    intro acc hacc hfold
    refine ih _ ?_ hfold
    intro b0 hb0
    dsimp only at hb0
    by_cases hx : x.mes_anyo = mes
    · rw [if_pos hx] at hb0
      cases hb0
      exact hx
    · rw [if_neg hx] at hb0
      exact hacc b0 hb0

lemma recorrerPeriodo_spec (regimen_acceso sexo : String)
    (cumple_condiciones_hombre : Bool) (topes_cotizacion : List (ℕ × Topes))
    (bases_todas : List BaseCotizacion) (h : topes_cotizacion ≠ []) :
    ∀ (restantes fecha_actual contador : ℕ),
      ∃ l, recorrerPeriodo regimen_acceso sexo cumple_condiciones_hombre topes_cotizacion
          bases_todas fecha_actual restantes contador = some l ∧
        l.map (·.mes_anyo) = (List.range restantes).map (fun i => fecha_actual - i) := by
  intro restantes
  induction restantes with
  | zero =>
    intro fecha_actual contador
    exact ⟨[], rfl, by simp⟩
  | succ n ih =>
    intro fecha_actual contador
    have hrango : (List.range (n + 1)).map (fun i => fecha_actual - i) =
        fecha_actual :: (List.range n).map (fun i => fecha_actual - 1 - i) := by
      rw [List.range_succ_eq_map, List.map_cons, List.map_map]
      refine congrArg₂ _ (by omega) (List.map_congr_left ?_)
      intro i _
      simp only [Function.comp_apply, Nat.succ_eq_add_one]
      omega
    rw [recorrerPeriodo]
    cases hd : bases_dict bases_todas fecha_actual with
    | some b =>
      obtain ⟨l, hl, hml⟩ := ih (fecha_actual - 1) contador
      refine ⟨b :: l, by rw [hl]; rfl, ?_⟩
      rw [List.map_cons, hml, hrango, bases_dict_mes hd]
    | none =>
      obtain ⟨q, hq⟩ := calcular_base_laguna_isSome regimen_acceso sexo
        cumple_condiciones_hombre topes_cotizacion fecha_actual (contador + 1) h
      obtain ⟨l, hl, hml⟩ := ih (fecha_actual - 1) (contador + 1)
      rw [hq]
      refine ⟨_ :: l, by rw [hl]; rfl, ?_⟩
      rw [List.map_cons, hml, hrango]

/-! Structural facts about the window and the downstream pipeline. -/

lemma anadirPeriodoBase_mes (fecha_jubilacion : ℕ) (b : BaseCotizacion) :
    (anadirPeriodoBase fecha_jubilacion b).mes_anyo = b.mes_anyo := rfl

lemma revalorizarBase_mes (indices_revalorizacion : List (ℕ × ℚ)) (b : BaseProcesada) :
    (revalorizarBase indices_revalorizacion b).mes_anyo = b.mes_anyo := by
  unfold revalorizarBase
  split_ifs
  · cases indices_revalorizacion.lookup b.mes_anyo <;> rfl
  · rfl

lemma pipeline_map_mes (fecha_jubilacion : ℕ) (indices_revalorizacion : List (ℕ × ℚ))
    (l : List BaseCotizacion) :
    (revalorizar_bases indices_revalorizacion (anadir_periodo fecha_jubilacion l)).map
      (·.mes_anyo) = l.map (·.mes_anyo) := by
  unfold revalorizar_bases anadir_periodo
  rw [List.map_map, List.map_map]
  apply List.map_congr_left
  intro b _
  simp only [Function.comp_apply, revalorizarBase_mes, anadirPeriodoBase_mes]

lemma window_pairwise_ge (N f : ℕ) :
    ((List.range N).map (fun i => f - i)).Pairwise (fun a b => b ≤ a) := by
  rw [List.pairwise_map]
  refine (List.pairwise_lt_range N).imp ?_
  intro i j hij
  omega

lemma window_pairwise_gt (N f : ℕ) (h : N ≤ f + 1) :
    ((List.range N).map (fun i => f - i)).Pairwise (fun a b => b < a) := by
  rw [List.pairwise_map]
  refine (List.pairwise_lt_range N).imp_of_mem ?_
  intro i j hi hj hij
  rw [List.mem_range] at hi hj
  omega

lemma ordenar_of_map_mes {l : List BaseProcesada} {M : List ℕ}
    (hm : l.map (·.mes_anyo) = M) (hs : M.Pairwise (fun a b => b ≤ a)) :
    ordenarPorFechaDesc l = l := by
  apply List.mergeSort_of_sorted
  have hmapped : (l.map (fun b : BaseProcesada => b.mes_anyo)).Pairwise (fun a b => b ≤ a) := by
    rw [hm]
    exact hs
  refine (List.pairwise_map.mp hmapped).imp ?_
  intro a b hab
  exact Nat.ble_eq.mpr hab

/-! Claim C1: the tiered statutory gap-amount rule. -/

/-- C1: for every gap month, `calcular_base_laguna` follows the tiered
statutory rule: with access regime AUTONOMO the amount is 0.00 for every
ordinal and sex; with access regime GENERAL and minimum monthly base `m` of
the gap's year, ordinal at most 48 yields `m`; ordinals 49 to 60 for a woman
(or a man with the special-conditions flag) yield `m`; ordinals 61 to 84 for
that population yield `round(0.8 * m, 2)`; ordinals above 84 for that
population yield `round(0.5 * m, 2)`; and a man without the flag at any
ordinal above 48 yields `round(0.5 * m, 2)`. -/
theorem regla_importe_laguna (sexo : String) (cumple : Bool)
    (topes : List (ℕ × Topes)) (fecha n : ℕ) (m : ℚ)
    (hm : _obtener_base_minima_anio topes (anioDe fecha) = some m) :
    calcular_base_laguna "AUTONOMO" sexo cumple topes fecha n = some 0 ∧
    (n ≤ 48 →
      calcular_base_laguna "GENERAL" sexo cumple topes fecha n = some m) ∧
    (49 ≤ n → n ≤ 60 → (sexo = "FEMENINO" ∨ (sexo = "MASCULINO" ∧ cumple = true)) →
      calcular_base_laguna "GENERAL" sexo cumple topes fecha n = some m) ∧
    (61 ≤ n → n ≤ 84 → (sexo = "FEMENINO" ∨ (sexo = "MASCULINO" ∧ cumple = true)) →
      calcular_base_laguna "GENERAL" sexo cumple topes fecha n =
        some (round2 ((4 / 5) * m))) ∧
    (84 < n → (sexo = "FEMENINO" ∨ (sexo = "MASCULINO" ∧ cumple = true)) →
      calcular_base_laguna "GENERAL" sexo cumple topes fecha n =
        some (round2 ((1 / 2) * m))) ∧
    (48 < n → sexo = "MASCULINO" → cumple = false →
      calcular_base_laguna "GENERAL" sexo cumple topes fecha n =
        some (round2 ((1 / 2) * m))) := by
  refine ⟨?_, ?_, ?_, ?_, ?_, ?_⟩
  · simp [calcular_base_laguna]
  · intro h48
    simp [calcular_base_laguna, hm, h48]
  · intro h49 h60 hpop
    have h48 : ¬ n ≤ 48 := by omega
    simp [calcular_base_laguna, hm, h48, h60, hpop]
  · intro h61 h84 hpop
    have h48 : ¬ n ≤ 48 := by omega
    have h60 : ¬ n ≤ 60 := by omega
    simp [calcular_base_laguna, hm, h48, h60, h84, hpop]
  · intro h84 hpop
    have h48 : ¬ n ≤ 48 := by omega
    have h60 : ¬ n ≤ 60 := by omega
    have h84n : ¬ n ≤ 84 := by omega
    simp [calcular_base_laguna, hm, h48, h60, h84n, hpop]
  · intro h48 hsexo hcumple
    subst hsexo
    subst hcumple
    have h48n : ¬ n ≤ 48 := by omega
    have hpop : ¬ ("MASCULINO" = "FEMENINO" ∨
        ("MASCULINO" = "MASCULINO" ∧ false = true)) := by decide
    simp [calcular_base_laguna, hm, h48n, hpop]

/-- Witness for C1 at the specification example: cap table with minimum 1080
for 2025, gap month 03/2025. -/
theorem regla_importe_laguna_witness :
    _obtener_base_minima_anio topesEjemplo (anioDe (mesAnyo 3 2025)) = some 1080 ∧
    calcular_base_laguna "AUTONOMO" "FEMENINO" false topesEjemplo (mesAnyo 3 2025) 70 =
      some 0 :=
  ⟨by decide,
    (regla_importe_laguna "FEMENINO" false topesEjemplo (mesAnyo 3 2025) 70 1080
      (by decide)).1⟩

/-! Claim C2: the period window. -/

/-- C2: for each scheme run (reform uses the retirement-year parameters,
legacy uses the fixed 300), `obtener_bases_periodo_computo` yields exactly N
records whose months are the N contiguous calendar months ending one month
before retirement, strictly descending and hence without duplicate or missing
month, and the walk is started with the local gap counter at zero for each
run. -/
theorem ventana_periodo_computo (s : Simulador) (flag : Bool)
    (ht : s.topes_cotizacion ≠ [])
    (hN : (if flag then 300 else s.parametros_anio_jubilacion.bases_incluidas) ≤
      s.fecha_jubilacion) :
    ∃ w, obtener_bases_periodo_computo s flag = some w ∧
      w.length = (if flag then 300 else s.parametros_anio_jubilacion.bases_incluidas) ∧
      w.map (·.mes_anyo) =
        (List.range (if flag then 300 else s.parametros_anio_jubilacion.bases_incluidas)).map
          (fun i => s.fecha_jubilacion - 1 - i) ∧
      (w.map (·.mes_anyo)).Pairwise (fun a b => b < a) ∧
      obtener_bases_periodo_computo s flag =
        recorrerPeriodo s.regimen_acceso s.sexo s.cumple_condiciones_hombre
          s.topes_cotizacion
          (s.bases ++ simular_periodo_futuro s.bases s.fecha_jubilacion s.regimen_acceso)
          (s.fecha_jubilacion - 1)
          (if flag then 300 else s.parametros_anio_jubilacion.bases_incluidas) 0 := by
  obtain ⟨w, hw, hmw⟩ := recorrerPeriodo_spec s.regimen_acceso s.sexo
    s.cumple_condiciones_hombre s.topes_cotizacion
    (s.bases ++ simular_periodo_futuro s.bases s.fecha_jubilacion s.regimen_acceso) ht
    (if flag then 300 else s.parametros_anio_jubilacion.bases_incluidas)
    (s.fecha_jubilacion - 1) 0
  have hob : obtener_bases_periodo_computo s flag =
      recorrerPeriodo s.regimen_acceso s.sexo s.cumple_condiciones_hombre
        s.topes_cotizacion
        (s.bases ++ simular_periodo_futuro s.bases s.fecha_jubilacion s.regimen_acceso)
        (s.fecha_jubilacion - 1)
        (if flag then 300 else s.parametros_anio_jubilacion.bases_incluidas) 0 := rfl
  refine ⟨w, by rw [hob, hw], ?_, hmw, ?_, hob⟩
  · have := congrArg List.length hmw
    simpa using this
  · rw [hmw]
    exact window_pairwise_gt _ _ (by omega)

/-- Witness for C2: a concrete reform run over `simuladorEjemplo`. -/
theorem ventana_periodo_computo_witness :
    simuladorEjemplo.topes_cotizacion ≠ [] ∧
    ∃ w, obtener_bases_periodo_computo simuladorEjemplo false = some w ∧
      w.length =
        (if false then 300 else simuladorEjemplo.parametros_anio_jubilacion.bases_incluidas) :=
  ⟨by decide, by
    obtain ⟨w, hw, hlen, _⟩ :=
      ventana_periodo_computo simuladorEjemplo false (by decide) (by decide)
    exact ⟨w, hw, hlen⟩⟩

/-! Claim C3: multi-employer aggregation. -/

lemma mayorPorBase_spec (l : List BaseCotizacion) (h : l ≠ []) :
    ∃ b, mayorPorBase l = some b ∧ b ∈ l ∧ ∀ x ∈ l, x.base ≤ b.base := by
  match l with
  | [] => exact absurd rfl h
  | a :: xs =>
    obtain ⟨hmem, hle, hmax⟩ := mejorMax_spec (·.base) xs a
    refine ⟨mejorMax (·.base) a xs, rfl, ?_, ?_⟩
    · rcases hmem with hixa | hixa
      · rw [hixa]; exact List.mem_cons_self a xs
      · exact List.mem_cons_of_mem a hixa
    · intro x hx
      rcases List.mem_cons.mp hx with rfl | hx
      · exact hle
      · exact hmax x hx

lemma agregacion_spec (topes : List (ℕ × Topes)) (bases_mes : List BaseCotizacion)
    (fecha : ℕ) (t : Topes) (hne : bases_mes ≠ [])
    (ht : _obtener_topes_anio topes (anioDe fecha) = some t)
    (hcap : t.base_minima_mensual ≤ t.base_maxima_mensual)
    (hmn : esCentimos t.base_minima_mensual) (hmx : esCentimos t.base_maxima_mensual)
    (hb : ∀ b ∈ bases_mes, esCentimos b.base) :
    ∃ r, _agregar_bases_mes topes bases_mes fecha = some r ∧
      r.base_agregada_bruta = (bases_mes.map (·.base)).sum ∧
      ((bases_mes.map (·.base)).sum < t.base_minima_mensual →
        r.base_agregada_final = t.base_minima_mensual ∧ r.aplicado_tope = "minimo") ∧
      (t.base_maxima_mensual < (bases_mes.map (·.base)).sum →
        r.base_agregada_final = t.base_maxima_mensual ∧ r.aplicado_tope = "maximo") ∧
      (t.base_minima_mensual ≤ (bases_mes.map (·.base)).sum →
        (bases_mes.map (·.base)).sum ≤ t.base_maxima_mensual →
        r.base_agregada_final = (bases_mes.map (·.base)).sum ∧
          r.aplicado_tope = "ninguno") ∧
      (∃ b ∈ bases_mes, r.regimen_principal = b.regimen ∧
        ∀ x ∈ bases_mes, x.base ≤ b.base) := by
  obtain ⟨b, hbm, hbmem, hbmax⟩ := mayorPorBase_spec bases_mes hne
  have hs : esCentimos ((bases_mes.map (·.base)).sum) := by
    apply esCentimos_sum
    intro x hx
    obtain ⟨b0, hb0, rfl⟩ := List.mem_map.mp hx
    exact hb b0 hb0
  have hagg : _agregar_bases_mes topes bases_mes fecha = some
      { mes_anyo := fecha
        bases_individuales := bases_mes
        base_agregada_bruta := round2 ((bases_mes.map (·.base)).sum)
        base_agregada_final := round2
          (if (bases_mes.map (·.base)).sum < t.base_minima_mensual then
            (t.base_minima_mensual, "minimo")
          else if t.base_maxima_mensual < (bases_mes.map (·.base)).sum then
            (t.base_maxima_mensual, "maximo")
          else ((bases_mes.map (·.base)).sum, "ninguno")).1
        aplicado_tope :=
          (if (bases_mes.map (·.base)).sum < t.base_minima_mensual then
            (t.base_minima_mensual, "minimo")
          else if t.base_maxima_mensual < (bases_mes.map (·.base)).sum then
            (t.base_maxima_mensual, "maximo")
          else ((bases_mes.map (·.base)).sum, "ninguno")).2
        regimen_principal := b.regimen
        empresa_agregada := "PLURIACTIVIDAD_" ++ toString bases_mes.length ++ "_EMPRESAS"
        empresas_detalle := bases_mes.map (·.empresa) } := by
    unfold _agregar_bases_mes
    rw [ht, hbm]
  refine ⟨_, hagg, ?_, ?_, ?_, ?_, ?_⟩
  · dsimp only
    exact round2_centimos hs
  · intro hlt
    dsimp only
    rw [if_pos hlt]
    exact ⟨round2_centimos hmn, rfl⟩
  · intro hgt
    have hnlt : ¬ (bases_mes.map (·.base)).sum < t.base_minima_mensual := by
      push_neg
      exact le_trans hcap (le_of_lt hgt)
    dsimp only
    rw [if_neg hnlt, if_pos hgt]
    exact ⟨round2_centimos hmx, rfl⟩
  · intro hge hle
    have hnlt : ¬ (bases_mes.map (·.base)).sum < t.base_minima_mensual := not_lt.mpr hge
    have hngt : ¬ t.base_maxima_mensual < (bases_mes.map (·.base)).sum := not_lt.mpr hle
    dsimp only
    rw [if_neg hnlt, if_neg hngt]
    exact ⟨round2_centimos hs, rfl⟩
  · exact ⟨b, hbmem, rfl, hbmax⟩

/-- C3: aggregation of a multi-employer month sums the amounts; a gross sum
below the year's minimum cap is clamped to the minimum with tag "minimo",
above the maximum cap it is clamped to the maximum with tag "maximo", and is
kept verbatim with tag "ninguno" otherwise; the aggregated regime is that of
an individual record of largest amount.  In particular two records summing to
2000 under caps 1080/4495 give 2000.00 with no cap, a 900 sum is clamped to
1080.00, and a 5000 sum is clamped to 4495.00. -/
theorem agregacion_pluriactividad (topes : List (ℕ × Topes))
    (bases_mes : List BaseCotizacion) (fecha : ℕ) (t : Topes)
    (hne : bases_mes ≠ [])
    (ht : _obtener_topes_anio topes (anioDe fecha) = some t)
    (hcap : t.base_minima_mensual ≤ t.base_maxima_mensual)
    (hmn : esCentimos t.base_minima_mensual) (hmx : esCentimos t.base_maxima_mensual)
    (hb : ∀ b ∈ bases_mes, esCentimos b.base) :
    (∃ r, _agregar_bases_mes topes bases_mes fecha = some r ∧
      r.base_agregada_bruta = (bases_mes.map (·.base)).sum ∧
      ((bases_mes.map (·.base)).sum < t.base_minima_mensual →
        r.base_agregada_final = t.base_minima_mensual ∧ r.aplicado_tope = "minimo") ∧
      (t.base_maxima_mensual < (bases_mes.map (·.base)).sum →
        r.base_agregada_final = t.base_maxima_mensual ∧ r.aplicado_tope = "maximo") ∧
      (t.base_minima_mensual ≤ (bases_mes.map (·.base)).sum →
        (bases_mes.map (·.base)).sum ≤ t.base_maxima_mensual →
        r.base_agregada_final = (bases_mes.map (·.base)).sum ∧
          r.aplicado_tope = "ninguno") ∧
      (∃ b ∈ bases_mes, r.regimen_principal = b.regimen ∧
        ∀ x ∈ bases_mes, x.base ≤ b.base)) ∧
    (∃ r1, _agregar_bases_mes topesEjemplo basesDos2000 (mesAnyo 6 2025) = some r1 ∧
      r1.base_agregada_final = 2000 ∧ r1.aplicado_tope = "ninguno") ∧
    (∃ r2, _agregar_bases_mes topesEjemplo basesDos900 (mesAnyo 6 2025) = some r2 ∧
      r2.base_agregada_final = 1080 ∧ r2.aplicado_tope = "minimo") ∧
    (∃ r3, _agregar_bases_mes topesEjemplo basesDos5000 (mesAnyo 6 2025) = some r3 ∧
      r3.base_agregada_final = 4495 ∧ r3.aplicado_tope = "maximo") := by
  refine ⟨agregacion_spec topes bases_mes fecha t hne ht hcap hmn hmx hb, ?_, ?_, ?_⟩
  · obtain ⟨r1, h1, _, _, _, hmid, _⟩ := agregacion_spec topesEjemplo basesDos2000
      (mesAnyo 6 2025) ⟨1080, 4495⟩ (by decide) (by decide) (by norm_num)
      (by decide) (by decide) (by decide)
    have hsum : ((basesDos2000.map (·.base)).sum : ℚ) = 2000 := by
      norm_num [basesDos2000]
    obtain ⟨hf, htag⟩ := hmid (by rw [hsum]; norm_num) (by rw [hsum]; norm_num)
    exact ⟨r1, h1, by rw [hf, hsum], htag⟩
  · obtain ⟨r2, h2, _, hmin, _, _, _⟩ := agregacion_spec topesEjemplo basesDos900
      (mesAnyo 6 2025) ⟨1080, 4495⟩ (by decide) (by decide) (by norm_num)
      (by decide) (by decide) (by decide)
    have hsum : ((basesDos900.map (·.base)).sum : ℚ) = 900 := by
      norm_num [basesDos900]
    obtain ⟨hf, htag⟩ := hmin (by rw [hsum]; norm_num)
    exact ⟨r2, h2, by rw [hf], htag⟩
  · obtain ⟨r3, h3, _, _, hmax, _, _⟩ := agregacion_spec topesEjemplo basesDos5000
      (mesAnyo 6 2025) ⟨1080, 4495⟩ (by decide) (by decide) (by norm_num)
      (by decide) (by decide) (by decide)
    have hsum : ((basesDos5000.map (·.base)).sum : ℚ) = 5000 := by
      norm_num [basesDos5000]
    obtain ⟨hf, htag⟩ := hmax (by rw [hsum]; norm_num)
    exact ⟨r3, h3, by rw [hf], htag⟩

/-- Witness for C3 at the 2000-sum example. -/
theorem agregacion_pluriactividad_witness :
    basesDos2000 ≠ [] ∧
    ∃ r1, _agregar_bases_mes topesEjemplo basesDos2000 (mesAnyo 6 2025) = some r1 ∧
      r1.base_agregada_final = 2000 ∧ r1.aplicado_tope = "ninguno" :=
  ⟨by decide,
    (agregacion_pluriactividad topesEjemplo basesDos2000 (mesAnyo 6 2025) ⟨1080, 4495⟩
      (by decide) (by decide) (by norm_num) (by decide) (by decide)
      (by decide)).2.1⟩

/-! Claim C4: the favorability choice. -/

/-- C4: `_elegir_calculo_mas_favorable` picks the reform result exactly when
its regulatory base is greater than or equal to the legacy one (ties go to
reform) and the legacy result otherwise, and every complete result retains
both scheme statistics and parameter sets for audit, its chosen fields being
the selector's output. -/
theorem eleccion_mas_favorable (s : Simulador) :
    (∀ (br bp : List BaseProcesada) (er ep : Estadisticas),
      (ep.base_reguladora ≤ er.base_reguladora →
        _elegir_calculo_mas_favorable br er bp ep = (br, er, "reforma_rd2_2023")) ∧
      (er.base_reguladora < ep.base_reguladora →
        _elegir_calculo_mas_favorable br er bp ep = (bp, ep, "prereforma")) ∧
      (er.base_reguladora = ep.base_reguladora →
        (_elegir_calculo_mas_favorable br er bp ep).2.2 = "reforma_rd2_2023")) ∧
    (∀ r, procesar_bases_completo s = some r →
      ∃ br er bp ep,
        _procesar_calculo_reforma s = some (br, some er) ∧
        _procesar_calculo_prereforma s = some (bp, some ep) ∧
        r.calculo_reforma_rd2_2023.estadisticas = er ∧
        r.calculo_reforma_rd2_2023.parametros =
          ⟨s.parametros_anio_jubilacion.bases_incluidas,
            s.parametros_anio_jubilacion.divisor_base_reguladora,
            s.parametros_anio_jubilacion.periodo_meses⟩ ∧
        r.calculo_prereforma.estadisticas = ep ∧
        r.calculo_prereforma.parametros = ⟨300, 350, 300⟩ ∧
        (r.bases_procesadas, r.estadisticas, r.calculo_elegido) =
          _elegir_calculo_mas_favorable br er bp ep) := by
  constructor
  · intro br bp er ep
    refine ⟨?_, ?_, ?_⟩
    · intro h
      unfold _elegir_calculo_mas_favorable
      rw [if_pos h]
    · intro h
      unfold _elegir_calculo_mas_favorable
      rw [if_neg (not_le.mpr h)]
    · intro h
      unfold _elegir_calculo_mas_favorable
      rw [if_pos (le_of_eq h.symm)]
  · intro r hr
    unfold procesar_bases_completo at hr
    cases h1 : _procesar_calculo_reforma s with
    | none => rw [h1] at hr; simp at hr
    | some pr =>
      obtain ⟨br, oer⟩ := pr
      cases oer with
      | none => rw [h1] at hr; simp at hr
      | some er =>
        cases h2 : _procesar_calculo_prereforma s with
        | none => rw [h1, h2] at hr; simp at hr
        | some pp =>
          obtain ⟨bp, oep⟩ := pp
          cases oep with
          | none => rw [h1, h2] at hr; simp at hr
          | some ep =>
            rw [h1, h2] at hr
            simp only [Option.some.injEq] at hr
            subst hr
            exact ⟨br, er, bp, ep, rfl, rfl, rfl, rfl, rfl, rfl, rfl⟩

/-- Witness for C4: a tie between two equal statistics selects the reform
branch. -/
theorem eleccion_mas_favorable_witness :
    (_elegir_calculo_mas_favorable [] ⟨2, 0, 2, 0, 2000, 2000, 1000⟩ []
      ⟨2, 0, 2, 0, 2000, 2000, 1000⟩).2.2 = "reforma_rd2_2023" :=
  (((eleccion_mas_favorable simuladorEjemplo).1 [] [] ⟨2, 0, 2, 0, 2000, 2000, 1000⟩
    ⟨2, 0, 2, 0, 2000, 2000, 1000⟩).2.2) rfl

/-! Claim C5: projection of future months (corrected). -/

/-- C5 counterexample: on the end-to-end fixture (records 09/2024 to 01/2025,
retirement 06/2025) the projector emits 4 synthetic months, 02/2025 through
05/2025, each with the trailing mean 1400.40 — not the 5 months through
06/2025 stated by the claim, and no record for the retirement month itself is
produced. -/
theorem simulacion_futuro_contraejemplo :
    (simular_periodo_futuro basesFixture (mesAnyo 6 2025) "GENERAL").length = 4 ∧
    ¬ (simular_periodo_futuro basesFixture (mesAnyo 6 2025) "GENERAL").length = 5 ∧
    (simular_periodo_futuro basesFixture (mesAnyo 6 2025) "GENERAL").map (·.mes_anyo) =
      [mesAnyo 2 2025, mesAnyo 3 2025, mesAnyo 4 2025, mesAnyo 5 2025] ∧
    ∀ b ∈ simular_periodo_futuro basesFixture (mesAnyo 6 2025) "GENERAL",
      b.mes_anyo ≠ mesAnyo 6 2025 ∧ b.base = 1400.40 := by
  have hval : round2 (promedioReciente basesFixture
      ⟨mesAnyo 1 2025, 1500.50, "Empresa A", "GENERAL"⟩) = 1400.40 := by
    norm_num [promedioReciente, basesFixture, round2, mesAnyo, List.cons_ne_nil]
  have hsim : simular_periodo_futuro basesFixture (mesAnyo 6 2025) "GENERAL" =
      (List.range 4).map (fun i =>
        { mes_anyo := mesAnyo 1 2025 + 1 + i
          base := round2 (promedioReciente basesFixture
            ⟨mesAnyo 1 2025, 1500.50, "Empresa A", "GENERAL"⟩)
          empresa := "SIMULADA"
          regimen := "GENERAL" }) := rfl
  refine ⟨by decide, by decide, by decide, ?_⟩
  intro b hb
  rw [hsim] at hb
  obtain ⟨i, hi, rfl⟩ := List.mem_map.mp hb
  rw [List.mem_range] at hi
  refine ⟨?_, hval⟩
  show mesAnyo 1 2025 + 1 + i ≠ mesAnyo 6 2025
  unfold mesAnyo
  omega

/-- C5 as amended: when retirement is strictly after the latest known record,
the projector emits one synthetic record per month from the month after the
latest record up to and including the month before retirement (4 months on
the fixture, 02/2025 to 05/2025), each carrying the rounded trailing mean,
employer "SIMULADA" and the access regime. -/
theorem simulacion_futuro_enmendada (bases : List BaseCotizacion)
    (fecha_jubilacion : ℕ) (regimen_acceso : String) (u : BaseCotizacion)
    (hu : mayorPorFecha bases = some u) (hf : u.mes_anyo < fecha_jubilacion) :
    (simular_periodo_futuro bases fecha_jubilacion regimen_acceso).map (·.mes_anyo) =
      (List.range (fecha_jubilacion - 1 - u.mes_anyo)).map
        (fun i => u.mes_anyo + 1 + i) ∧
    ∀ b ∈ simular_periodo_futuro bases fecha_jubilacion regimen_acceso,
      b.base = round2 (promedioReciente bases u) ∧ b.empresa = "SIMULADA" ∧
        b.regimen = regimen_acceso := by
  have hsim : simular_periodo_futuro bases fecha_jubilacion regimen_acceso =
      (List.range (fecha_jubilacion - 1 - u.mes_anyo)).map (fun i =>
        { mes_anyo := u.mes_anyo + 1 + i
          base := round2 (promedioReciente bases u)
          empresa := "SIMULADA"
          regimen := regimen_acceso }) := by
    unfold simular_periodo_futuro
    rw [hu]
    dsimp only
    rw [if_neg (not_le.mpr hf)]
  constructor
  · rw [hsim, List.map_map]
    rfl
  · intro b hb
    rw [hsim] at hb
    obtain ⟨i, _, rfl⟩ := List.mem_map.mp hb
    exact ⟨rfl, rfl, rfl⟩

/-- Witness for the amended C5 at the fixture. -/
theorem simulacion_futuro_enmendada_witness :
    mayorPorFecha basesFixture =
      some ⟨mesAnyo 1 2025, 1500.50, "Empresa A", "GENERAL"⟩ ∧
    (⟨mesAnyo 1 2025, 1500.50, "Empresa A", "GENERAL"⟩ : BaseCotizacion).mes_anyo <
      mesAnyo 6 2025 ∧
    (simular_periodo_futuro basesFixture (mesAnyo 6 2025) "GENERAL").map (·.mes_anyo) =
      (List.range ((mesAnyo 6 2025) - 1 -
        (⟨mesAnyo 1 2025, 1500.50, "Empresa A", "GENERAL"⟩ : BaseCotizacion).mes_anyo)).map
        (fun i =>
          (⟨mesAnyo 1 2025, 1500.50, "Empresa A", "GENERAL"⟩ : BaseCotizacion).mes_anyo +
            1 + i) :=
  ⟨rfl, by decide,
    (simulacion_futuro_enmendada basesFixture (mesAnyo 6 2025) "GENERAL"
      ⟨mesAnyo 1 2025, 1500.50, "Empresa A", "GENERAL"⟩ rfl (by decide)).1⟩

/-! Claim C6: revaluation classification. -/

/-- C6: each record of the period window within the 24 months before
retirement is tagged "no_revalorizado" and kept verbatim; every older month
is tagged "revalorizado" and, when its month has an index, its amount becomes
`round(original * index, 2)` with `base_original` and the applied index
recorded, while a missing index leaves the amount unchanged and records index
1.0; the pipeline is total, so revaluation never raises. -/
theorem clasificacion_revalorizacion (fecha_jubilacion : ℕ)
    (indices_revalorizacion : List (ℕ × ℚ)) (l : List BaseCotizacion) :
    ∀ c ∈ revalorizar_bases indices_revalorizacion
        (anadir_periodo fecha_jubilacion l),
      ∃ b ∈ l,
        c = revalorizarBase indices_revalorizacion
          (anadirPeriodoBase fecha_jubilacion b) ∧
        (fecha_jubilacion ≤ b.mes_anyo + 24 →
          c.periodo = "no_revalorizado" ∧ c.base = b.base ∧
          c.base_original = none ∧ c.indice_revalorizacion = none) ∧
        (b.mes_anyo + 24 < fecha_jubilacion →
          c.periodo = "revalorizado" ∧
          ((∃ indice, indices_revalorizacion.lookup b.mes_anyo = some indice ∧
              c.base = round2 (b.base * indice) ∧ c.base_original = some b.base ∧
              c.indice_revalorizacion = some indice) ∨
            (indices_revalorizacion.lookup b.mes_anyo = none ∧
              c.base = b.base ∧ c.base_original = some b.base ∧
              c.indice_revalorizacion = some 1))) := by
  intro c hc
  unfold revalorizar_bases anadir_periodo at hc
  rw [List.map_map] at hc
  obtain ⟨b, hb, rfl⟩ := List.mem_map.mp hc
  refine ⟨b, hb, rfl, ?_, ?_⟩
  · intro h24
    have hcond : fecha_jubilacion - 24 ≤ b.mes_anyo := Nat.sub_le_iff_le_add.mpr h24
    have h1 : anadirPeriodoBase fecha_jubilacion b =
        ⟨b.mes_anyo, b.base, b.empresa, b.regimen, "no_revalorizado", none, none⟩ := by
      unfold anadirPeriodoBase
      rw [if_pos hcond]
    rw [Function.comp_apply, h1]
    unfold revalorizarBase
    dsimp only
    rw [if_neg (show ¬ ("no_revalorizado" : String) = "revalorizado" by decide)]
    exact ⟨rfl, rfl, rfl, rfl⟩
  · intro h24
    have hcond : ¬ fecha_jubilacion - 24 ≤ b.mes_anyo := by omega
    have h1 : anadirPeriodoBase fecha_jubilacion b =
        ⟨b.mes_anyo, b.base, b.empresa, b.regimen, "revalorizado", none, none⟩ := by
      unfold anadirPeriodoBase
      rw [if_neg hcond]
    rw [Function.comp_apply, h1]
    unfold revalorizarBase
    dsimp only
    rw [if_pos rfl]
    cases hidx : indices_revalorizacion.lookup b.mes_anyo with
    | some indice => exact ⟨rfl, Or.inl ⟨indice, rfl, rfl, rfl, rfl⟩⟩
    | none => exact ⟨rfl, Or.inr ⟨rfl, rfl, rfl, rfl⟩⟩

/-- Witness for C6 at a concrete non-revalued month. -/
theorem clasificacion_revalorizacion_witness :
    revalorizarBase [] (anadirPeriodoBase (mesAnyo 6 2025)
        ⟨mesAnyo 5 2025, 1000, "Empresa A", "GENERAL"⟩) ∈
      revalorizar_bases [] (anadir_periodo (mesAnyo 6 2025)
        [⟨mesAnyo 5 2025, 1000, "Empresa A", "GENERAL"⟩]) ∧
    ∃ b ∈ [(⟨mesAnyo 5 2025, 1000, "Empresa A", "GENERAL"⟩ : BaseCotizacion)],
      revalorizarBase [] (anadirPeriodoBase (mesAnyo 6 2025)
        ⟨mesAnyo 5 2025, 1000, "Empresa A", "GENERAL"⟩) =
        revalorizarBase [] (anadirPeriodoBase (mesAnyo 6 2025) b) := by
  have hmem : revalorizarBase [] (anadirPeriodoBase (mesAnyo 6 2025)
      ⟨mesAnyo 5 2025, 1000, "Empresa A", "GENERAL"⟩) ∈
      revalorizar_bases [] (anadir_periodo (mesAnyo 6 2025)
        [⟨mesAnyo 5 2025, 1000, "Empresa A", "GENERAL"⟩]) :=
    List.mem_singleton.mpr rfl
  refine ⟨hmem, ?_⟩
  obtain ⟨b, hb, heq, _⟩ := clasificacion_revalorizacion (mesAnyo 6 2025) []
    [⟨mesAnyo 5 2025, 1000, "Empresa A", "GENERAL"⟩] _ hmem
  exact ⟨b, hb, heq⟩

/-! Claim C7: statistics identities. -/

lemma longitud_particion (l : List BaseProcesada)
    (h : ∀ b ∈ l, b.periodo = "revalorizado" ∨ b.periodo = "no_revalorizado") :
    l.length = (l.filter (fun b => b.periodo = "revalorizado")).length +
      (l.filter (fun b => b.periodo = "no_revalorizado")).length := by
  induction l with
  | nil => rfl
  | cons x xs ih =>
    have hx := h x (List.mem_cons_self x xs)
    have ihh := ih (fun b hb => h b (List.mem_cons_of_mem x hb))
    rcases hx with hx | hx
    · rw [List.length_cons,
        List.filter_cons_of_pos (by simp [hx]),
        List.filter_cons_of_neg (by simp [hx]),
        List.length_cons, ihh]
      omega
    · rw [List.length_cons,
        List.filter_cons_of_neg (by simp [hx]),
        List.filter_cons_of_pos (by simp [hx]),
        List.length_cons, ihh]
      omega

/-- C7: for every nonempty processed list the reported statistics satisfy
exactly `suma_total = suma_revalorizado + suma_no_revalorizado`,
`total = revalued count + non-revalued count`, and
`base_reguladora = round(suma_total / divisor, 2)`; the legacy run always
computes its statistics with the fixed divisor 350. -/
theorem estadisticas_y_base_reguladora (l : List BaseProcesada) (divisor : ℕ)
    (hne : l ≠ [])
    (hper : ∀ b ∈ l, b.periodo = "revalorizado" ∨ b.periodo = "no_revalorizado")
    (hcent : ∀ b ∈ l, esCentimos b.base) :
    (∃ e, _calcular_estadisticas_para_bases l divisor = some e ∧
      e.suma_total = e.suma_periodo_revalorizado + e.suma_periodo_no_revalorizado ∧
      e.total_bases = e.bases_revalorizadas + e.bases_no_revalorizadas ∧
      e.base_reguladora = round2 (e.suma_total / (divisor : ℚ))) ∧
    (∀ (s : Simulador) (bp : List BaseProcesada × Option Estadisticas),
      _procesar_calculo_prereforma s = some bp →
      bp.2 = _calcular_estadisticas_para_bases bp.1 350) := by
  constructor
  · have hsr : esCentimos (((l.filter (fun b => b.periodo = "revalorizado")).map
        (·.base)).sum) := by
      apply esCentimos_sum
      intro x hx
      obtain ⟨b0, hb0, rfl⟩ := List.mem_map.mp hx
      exact hcent b0 (List.mem_of_mem_filter hb0)
    have hsn : esCentimos (((l.filter (fun b => b.periodo = "no_revalorizado")).map
        (·.base)).sum) := by
      apply esCentimos_sum
      intro x hx
      obtain ⟨b0, hb0, rfl⟩ := List.mem_map.mp hx
      exact hcent b0 (List.mem_of_mem_filter hb0)
    have he : _calcular_estadisticas_para_bases l divisor = some
        { total_bases := l.length
          bases_revalorizadas := (l.filter (fun b => b.periodo = "revalorizado")).length
          bases_no_revalorizadas :=
            (l.filter (fun b => b.periodo = "no_revalorizado")).length
          suma_periodo_revalorizado := round2
            (((l.filter (fun b => b.periodo = "revalorizado")).map (·.base)).sum)
          suma_periodo_no_revalorizado := round2
            (((l.filter (fun b => b.periodo = "no_revalorizado")).map (·.base)).sum)
          suma_total := round2
            ((((l.filter (fun b => b.periodo = "revalorizado")).map (·.base)).sum) +
              (((l.filter (fun b => b.periodo = "no_revalorizado")).map (·.base)).sum))
          base_reguladora := round2
            (((((l.filter (fun b => b.periodo = "revalorizado")).map (·.base)).sum) +
              (((l.filter (fun b => b.periodo = "no_revalorizado")).map (·.base)).sum)) /
              (divisor : ℚ)) } := by
      unfold _calcular_estadisticas_para_bases
      rw [if_neg hne]
    refine ⟨_, he, ?_, ?_, ?_⟩
    · dsimp only
      rw [round2_centimos hsr, round2_centimos hsn,
        round2_centimos (esCentimos_add hsr hsn)]
    · dsimp only
      exact longitud_particion l hper
    · dsimp only
      rw [round2_centimos (esCentimos_add hsr hsn)]
  · intro s bp hbp
    unfold _procesar_calculo_prereforma at hbp
    cases hob : obtener_bases_periodo_computo s true with
    | none => rw [hob] at hbp; simp at hbp
    | some w =>
      rw [hob] at hbp
      obtain rfl : (ordenarPorFechaDesc (revalorizar_bases s.indices_revalorizacion
          (anadir_periodo s.fecha_jubilacion w)),
        _calcular_estadisticas_para_bases (ordenarPorFechaDesc
          (revalorizar_bases s.indices_revalorizacion
            (anadir_periodo s.fecha_jubilacion w))) 350) = bp := Option.some.inj hbp
      rfl

/-- Witness for C7 on a one-record processed list with divisor 2. -/
theorem estadisticas_y_base_reguladora_witness :
    ([(⟨mesAnyo 5 2025, 1000, "Empresa A", "GENERAL", "no_revalorizado", none, none⟩ :
      BaseProcesada)] ≠ []) ∧
    ∃ e, _calcular_estadisticas_para_bases
        [⟨mesAnyo 5 2025, 1000, "Empresa A", "GENERAL", "no_revalorizado", none, none⟩]
        2 = some e ∧
      e.suma_total = e.suma_periodo_revalorizado + e.suma_periodo_no_revalorizado ∧
      e.total_bases = e.bases_revalorizadas + e.bases_no_revalorizadas ∧
      e.base_reguladora = round2 (e.suma_total / (2 : ℕ)) :=
  ⟨by decide,
    (estadisticas_y_base_reguladora
      [⟨mesAnyo 5 2025, 1000, "Empresa A", "GENERAL", "no_revalorizado", none, none⟩] 2
      (by decide) (by decide) (by decide)).1⟩

/-! Claim C8: eager ingestion validation (corrected: no sex check exists). -/

/-- C8 counterexample: a shape-valid input whose sex value "OTRO" lies
outside the documented set is accepted by ingestion without any error, so no
InvalidSex failure exists in the engine. -/
theorem validacion_sexo_contraejemplo :
    ingesta entradaEjemplo =
      .ok ⟨basesEjemplo, "06/2025", "GENERAL", "OTRO"⟩ ∧
    entradaEjemplo.sexo ≠ "MASCULINO" ∧ entradaEjemplo.sexo ≠ "FEMENINO" :=
  ⟨rfl, by decide, by decide⟩

/-- C8 as amended: ingestion fails eagerly with a typed error for an empty
record list, a malformed retirement date, an invalid regime, or a negative
amount — but the sex value is never validated: with the other checks passing,
ingestion succeeds for every sex string whatsoever. -/
theorem validacion_entrada_enmendada (e : EntradaSimulador)
    (h1 : e.bases ≠ []) (h2 : fechaValida e.fecha_jubilacion = true)
    (h3 : mayusculas e.regimen_acceso = "GENERAL" ∨
      mayusculas e.regimen_acceso = "AUTONOMO")
    (h4 : e.bases.find? (fun b => b.base < 0) = none) :
    (∀ sexo : String, ingesta { e with sexo := sexo } =
      .ok { e with regimen_acceso := mayusculas e.regimen_acceso,
                   sexo := mayusculas sexo }) ∧
    (∀ e2 : EntradaSimulador, e2.bases = [] →
      ingesta e2 = .error .listaVacia) ∧
    (∀ e2 : EntradaSimulador, e2.bases ≠ [] →
      fechaValida e2.fecha_jubilacion = false →
      ingesta e2 = .error (.formatoFechaInvalido e2.fecha_jubilacion)) ∧
    (∀ e2 : EntradaSimulador, e2.bases ≠ [] →
      fechaValida e2.fecha_jubilacion = true →
      ¬ (mayusculas e2.regimen_acceso = "GENERAL" ∨
        mayusculas e2.regimen_acceso = "AUTONOMO") →
      ingesta e2 = .error (.regimenInvalido e2.regimen_acceso)) ∧
    (∀ (e2 : EntradaSimulador) (b : BaseCotizacion), e2.bases ≠ [] →
      fechaValida e2.fecha_jubilacion = true →
      (mayusculas e2.regimen_acceso = "GENERAL" ∨
        mayusculas e2.regimen_acceso = "AUTONOMO") →
      e2.bases.find? (fun b => b.base < 0) = some b →
      ingesta e2 = .error (.baseNegativa b.base)) := by
  refine ⟨?_, ?_, ?_, ?_, ?_⟩
  · intro sexo
    unfold ingesta _validar_datos_entrada validarBasesPositivas
    dsimp only
    rw [if_neg h1, if_neg (not_not_intro h2), if_neg (not_not_intro h3), h4]
  · intro e2 h
    unfold ingesta _validar_datos_entrada
    rw [if_pos h]
  · intro e2 hne hdf
    unfold ingesta _validar_datos_entrada
    rw [if_neg hne, if_pos (by rw [hdf]; exact Bool.false_ne_true)]
  · intro e2 hne hdf hreg
    unfold ingesta _validar_datos_entrada
    rw [if_neg hne, if_neg (not_not_intro hdf), if_pos hreg]
  · intro e2 b hne hdf hreg hfind
    unfold ingesta _validar_datos_entrada validarBasesPositivas
    rw [if_neg hne, if_neg (not_not_intro hdf), if_neg (not_not_intro hreg), hfind]

/-- Witness for the amended C8: the validations pass on `entradaEjemplo`
regardless of its sex string. -/
theorem validacion_entrada_enmendada_witness :
    entradaEjemplo.bases ≠ [] ∧
    fechaValida entradaEjemplo.fecha_jubilacion = true ∧
    mayusculas entradaEjemplo.regimen_acceso = "GENERAL" ∧
    entradaEjemplo.bases.find? (fun b => b.base < 0) = none ∧
    ingesta { entradaEjemplo with sexo := "X" } =
      .ok { entradaEjemplo with
        regimen_acceso := mayusculas entradaEjemplo.regimen_acceso,
        sexo := mayusculas "X" } :=
  ⟨by decide, by decide, by decide, by decide,
    (validacion_entrada_enmendada entradaEjemplo (by decide) (by decide)
      (Or.inl (by decide)) (by decide)).1 "X"⟩

/-! Claim C9: nearest-year fallback never fails on nonempty tables. -/

/-- C9: a lookup year absent from the computation-parameter or cap table does
not abort: with a nonempty table, both lookups return the entry of an
available year at minimal absolute distance from the requested year. -/
theorem anio_cercano_fallback (parametros_computo : List (ℕ × Parametros))
    (topes_cotizacion : List (ℕ × Topes)) (anio : ℕ)
    (hp : parametros_computo ≠ []) (ht : topes_cotizacion ≠ []) :
    (∃ y p, get_parametros_computo parametros_computo anio = some p ∧
      (y, p) ∈ parametros_computo ∧
      ∀ z ∈ parametros_computo.map Prod.fst, Nat.dist y anio ≤ Nat.dist z anio) ∧
    (∃ y t, _obtener_topes_anio topes_cotizacion anio = some t ∧
      (y, t) ∈ topes_cotizacion ∧
      ∀ z ∈ topes_cotizacion.map Prod.fst, Nat.dist y anio ≤ Nat.dist z anio) :=
  ⟨get_parametros_computo_spec parametros_computo anio hp,
    _obtener_topes_anio_spec topes_cotizacion anio ht⟩

/-- Witness for C9 at the absent year 2030 over one-year tables. -/
theorem anio_cercano_fallback_witness :
    ([(2025, parametrosEjemplo)] ≠ ([] : List (ℕ × Parametros))) ∧
    (topesEjemplo ≠ []) ∧
    (∃ y t, _obtener_topes_anio topesEjemplo 2030 = some t ∧ (y, t) ∈ topesEjemplo ∧
      ∀ z ∈ topesEjemplo.map Prod.fst, Nat.dist y 2030 ≤ Nat.dist z 2030) :=
  ⟨by decide, by decide,
    (anio_cercano_fallback [(2025, parametrosEjemplo)] topesEjemplo 2030
      (by decide) (by decide)).2⟩

/-! Claim C10: descending order of every returned period list. -/

lemma pipeline_por_flag (s : Simulador) (flag : Bool) (divisor : ℕ)
    (ht : s.topes_cotizacion ≠ [])
    (hN : (if flag then 300 else s.parametros_anio_jubilacion.bases_incluidas) ≤
      s.fecha_jubilacion)
    (hN1 : 1 ≤ (if flag then 300 else s.parametros_anio_jubilacion.bases_incluidas)) :
    ∃ lista e,
      (obtener_bases_periodo_computo s flag).map (fun bases_periodo =>
        (ordenarPorFechaDesc (revalorizar_bases s.indices_revalorizacion
          (anadir_periodo s.fecha_jubilacion bases_periodo)),
         _calcular_estadisticas_para_bases (ordenarPorFechaDesc
           (revalorizar_bases s.indices_revalorizacion
             (anadir_periodo s.fecha_jubilacion bases_periodo))) divisor)) =
        some (lista, some e) ∧
      (lista.map (·.mes_anyo)).Pairwise (fun a b => b < a) ∧
      lista.head?.map (·.mes_anyo) = some (s.fecha_jubilacion - 1) := by
  obtain ⟨w, hw, hmw⟩ := recorrerPeriodo_spec s.regimen_acceso s.sexo
    s.cumple_condiciones_hombre s.topes_cotizacion
    (s.bases ++ simular_periodo_futuro s.bases s.fecha_jubilacion s.regimen_acceso) ht
    (if flag then 300 else s.parametros_anio_jubilacion.bases_incluidas)
    (s.fecha_jubilacion - 1) 0
  have hob : obtener_bases_periodo_computo s flag = some w := hw
  set L := revalorizar_bases s.indices_revalorizacion
    (anadir_periodo s.fecha_jubilacion w) with hLdef
  have hLmes : L.map (·.mes_anyo) =
      (List.range (if flag then 300 else s.parametros_anio_jubilacion.bases_incluidas)).map
        (fun i => s.fecha_jubilacion - 1 - i) :=
    (pipeline_map_mes s.fecha_jubilacion s.indices_revalorizacion w).trans hmw
  have hsorted : ordenarPorFechaDesc L = L :=
    ordenar_of_map_mes hLmes (window_pairwise_ge _ _)
  have hLne : L ≠ [] := by
    intro h0
    have := congrArg List.length hLmes
    rw [h0] at this
    simp only [List.length_nil, List.length_map, List.length_range] at this
    omega
  have hest : ∃ e, _calcular_estadisticas_para_bases L divisor = some e := by
    unfold _calcular_estadisticas_para_bases
    rw [if_neg hLne]
    exact ⟨_, rfl⟩
  obtain ⟨e, he⟩ := hest
  refine ⟨L, e, ?_, ?_, ?_⟩
  · rw [hob, Option.map_some']
    rw [← hLdef, hsorted, he]
  · rw [hLmes]
    exact window_pairwise_gt _ _ (by omega)
  · obtain ⟨n, hn⟩ : ∃ n,
        (if flag then 300 else s.parametros_anio_jubilacion.bases_incluidas) = n + 1 :=
      ⟨(if flag then 300 else s.parametros_anio_jubilacion.bases_incluidas) - 1, by omega⟩
    rw [← List.head?_map, hLmes, hn, List.range_succ_eq_map, List.map_cons,
      List.head?_cons, Nat.sub_zero]

/-- C10: both per-scheme period lists produced by the complete computation
are strictly descending by month with the most recent entry being the month
immediately before retirement, and the chosen list of the complete result is
one of the two. -/
theorem listas_ordenadas_descendentes (s : Simulador)
    (ht : s.topes_cotizacion ≠ [])
    (hNr : s.parametros_anio_jubilacion.bases_incluidas ≤ s.fecha_jubilacion)
    (hNr1 : 1 ≤ s.parametros_anio_jubilacion.bases_incluidas)
    (h300 : 300 ≤ s.fecha_jubilacion) :
    ∃ br er bp ep,
      _procesar_calculo_reforma s = some (br, some er) ∧
      _procesar_calculo_prereforma s = some (bp, some ep) ∧
      (br.map (·.mes_anyo)).Pairwise (fun a b => b < a) ∧
      br.head?.map (·.mes_anyo) = some (s.fecha_jubilacion - 1) ∧
      (bp.map (·.mes_anyo)).Pairwise (fun a b => b < a) ∧
      bp.head?.map (·.mes_anyo) = some (s.fecha_jubilacion - 1) ∧
      ∃ r, procesar_bases_completo s = some r ∧
        (r.bases_procesadas = br ∨ r.bases_procesadas = bp) := by
  obtain ⟨br, er, hbr, hbrpw, hbrhead⟩ := pipeline_por_flag s false
    s.parametros_anio_jubilacion.divisor_base_reguladora ht (by simpa using hNr)
    (by simpa using hNr1)
  obtain ⟨bp, ep, hbp, hbppw, hbphead⟩ := pipeline_por_flag s true 350 ht
    (by simpa using h300) (by simp)
  have hprocR : _procesar_calculo_reforma s = some (br, some er) := hbr
  have hprocP : _procesar_calculo_prereforma s = some (bp, some ep) := hbp
  refine ⟨br, er, bp, ep, hprocR, hprocP, hbrpw, hbrhead, hbppw, hbphead, ?_⟩
  have hcompleto : procesar_bases_completo s = some
      (_generar_resultado_completo s
        (_elegir_calculo_mas_favorable br er bp ep).1
        (_elegir_calculo_mas_favorable br er bp ep).2.1
        (_elegir_calculo_mas_favorable br er bp ep).2.2
        br er bp ep) := by
    unfold procesar_bases_completo
    rw [hprocR, hprocP]
  refine ⟨_, hcompleto, ?_⟩
  unfold _elegir_calculo_mas_favorable
  by_cases hle : ep.base_reguladora ≤ er.base_reguladora
  · rw [if_pos hle]
    exact Or.inl rfl
  · rw [if_neg hle]
    exact Or.inr rfl

/-- Witness for C10 on `simuladorEjemplo`. -/
theorem listas_ordenadas_descendentes_witness :
    simuladorEjemplo.topes_cotizacion ≠ [] ∧
    simuladorEjemplo.parametros_anio_jubilacion.bases_incluidas ≤
      simuladorEjemplo.fecha_jubilacion ∧
    300 ≤ simuladorEjemplo.fecha_jubilacion ∧
    ∃ br er bp ep,
      _procesar_calculo_reforma simuladorEjemplo = some (br, some er) ∧
      _procesar_calculo_prereforma simuladorEjemplo = some (bp, some ep) ∧
      (br.map (·.mes_anyo)).Pairwise (fun a b => b < a) ∧
      br.head?.map (·.mes_anyo) = some (simuladorEjemplo.fecha_jubilacion - 1) ∧
      (bp.map (·.mes_anyo)).Pairwise (fun a b => b < a) ∧
      bp.head?.map (·.mes_anyo) = some (simuladorEjemplo.fecha_jubilacion - 1) ∧
      ∃ r, procesar_bases_completo simuladorEjemplo = some r ∧
        (r.bases_procesadas = br ∨ r.bases_procesadas = bp) :=
  ⟨by decide, by decide, by decide,
    listas_ordenadas_descendentes simuladorEjemplo (by decide) (by decide) (by decide)
      (by decide)⟩

end PensionBases
